import Mathlib

/-!
Verification of `arsoft-trac-commitupdater` (`commit_updater.py`) against its
natural-language specification.

The development is a shallow embedding of the plugin's core logic:

* the author splitter `_get_changeset_author` and the domain policy
  `_is_author_allowed`;
* the username resolution chain `_get_username_for_email` /
  `_get_username_for_changeset_author`;
* the nine ticket transition functions `cmd_close`, `cmd_invalidate`,
  `cmd_worksforme`, `cmd_alreadyimplemented`, `cmd_reopens`, `cmd_refs`,
  `cmd_implements`, `cmd_rejects`, `cmd_testready`;
* the commit-message parser `_parse_message` (a hand-compiled, faithful
  backtracking matcher for the plugin's regular expressions, at the default
  configuration: empty envelope and the default command alias lists);
* the duplicate guard `_is_duplicate` and the old/new-message filtering of
  `changeset_modified`;
* the per-event engine `_update_tickets`.

Python strings are modelled as `String` / `List Char`; Python `None` as
`Option.none`; the mutable ticket as a Lean structure passed functionally;
exceptions as `Except`.
-/

namespace CommitUpdater

/-! ### Python string primitives

Models of the Python `str` operations the source uses: `find`, `rfind`,
slicing, `strip`, truthiness. Indices are `Nat`; the "not found" value `-1`
is modelled as `Option.none` together with the branch structure of the
call sites.
-/

/-- Python `s.find(c)`: index of the first occurrence of `c`, else none
(`-1` in Python). -/
def pyFind : List Char → Char → Option Nat
  | [], _ => none
  | c :: cs, t => if c = t then some 0 else (pyFind cs t).map (· + 1)

/-- Python `s.rfind(c)` on a full string: index of the last occurrence of
`c`, else none (`-1` in Python). -/
def pyRFind : List Char → Char → Option Nat
  | [], _ => none
  | c :: cs, t =>
    match pyRFind cs t with
    | some i => some (i + 1)
    | none => if c = t then some 0 else none

/-- Python `s.find(c, start)`: first occurrence of `c` at index `≥ start`. -/
def pyFindFrom (l : List Char) (t : Char) (start : Nat) : Option Nat :=
  (pyFind (l.drop start) t).map (· + start)

/-- Python slice `s[a:b]` (for the in-range, `a ≤ b` uses of the source). -/
def pySlice (l : List Char) (a b : Nat) : List Char :=
  (l.drop a).take (b - a)

/-- Python `\s` / `str.strip` whitespace class (byte-string semantics). -/
def isSpaceChar (c : Char) : Bool :=
  c == ' ' || c == '\t' || c == '\n' || c == '\r' || c == '\x0b' || c == '\x0c'

/-- Python `s.strip()`. -/
def pyStrip (l : List Char) : List Char :=
  ((l.dropWhile isSpaceChar).reverse.dropWhile isSpaceChar).reverse

/-- Python truthiness of an optional string (`if author_username:`):
`None` and the empty string are falsy. -/
def pyTruthyStr : Option String → Option String
  | none => none
  | some s => if s = "" then none else some s

/-- Python `s.lower()` (ASCII case folding, as for Python 2 byte strings). -/
def pyLower (s : String) : String :=
  String.mk (s.data.map Char.toLower)

/-- Worker for `pySplitSpace` (separator `c`, reversed accumulator). -/
def splitOnCharAux (c : Char) : List Char → List Char → List (List Char)
  | [], acc => [acc.reverse]
  | x :: xs, acc =>
    if x = c then acc.reverse :: splitOnCharAux c xs []
    else splitOnCharAux c xs (x :: acc)

/-- Python `s.split(' ')`: split at every single space, keeping empty
parts. -/
def pySplitSpace (s : String) : List String :=
  (splitOnCharAux ' ' s.data []).map String.mk

/-- Python `s.strip()` on a `String`. -/
def pyStripStr (s : String) : String :=
  String.mk (pyStrip s.data)

/-! ### Author resolver -/

/-- `CommitTicketUpdater._get_changeset_author` (commit_updater.py:243-262):
splits a raw changeset author into `(author_name, author_email,
author_email_domain)`.  The `@` must occur at an index `> 0`; the name is
everything before the nearest `<` left of the `@` (stripped), the email runs
from after that `<` (or index 0) to the next `>` after the `@` (or the end),
and the domain is the lower-cased text between the `@` and the email end. -/
def _get_changeset_author (changeset_author : String) :
    Option String × Option String × Option String :=
  let s := changeset_author.data
  match pyFind s '@' with
  | none => (none, none, none)
  | some at_idx =>
    if at_idx > 0 then
      let p :=
        match pyRFind (s.take at_idx) '<' with
        | none => (none, 0)
        | some si => (some (String.mk (pyStrip (s.take si))), si + 1)
      let end_idx :=
        match pyFindFrom s '>' at_idx with
        | none => s.length
        | some e => e
      (p.1, some (String.mk (pySlice s p.2 end_idx)),
        some (pyLower (String.mk (pySlice s (at_idx + 1) end_idx))))
    else (none, none, none)

/-- `CommitTicketUpdater._is_author_allowed` (commit_updater.py:264-276):
if the configured `allowed_domains` string is empty the author is allowed;
otherwise the author is denied unless a domain was extracted and it is a
member of the space-separated `allowed_domains` list. -/
def _is_author_allowed (allowed_domains : String) (changeset_author : String) :
    Bool :=
  if allowed_domains = "" then true
  else
    match (_get_changeset_author changeset_author).2.2 with
    | none => false
    | some d => if (pySplitSpace allowed_domains).contains d then true else false

/-- A row of `env.get_known_users()`: `(username, name, email)`, each
possibly `None`. -/
structure KnownUser where
  username : Option String
  name : Option String
  email : Option String
deriving Repr, DecidableEq

/-- The match test inside `_get_username_for_email`'s loop. -/
def userMatches (changeset_email_lower : String) (u : KnownUser) : Bool :=
  (match u.email with
   | some e => pyLower e == changeset_email_lower
   | none => false)
  ||
  (match u.username with
   | some un => pyLower un == changeset_email_lower
   | none => false)

/-- `CommitTicketUpdater._get_username_for_email` (commit_updater.py:278-284):
first known user whose email or username matches case-insensitively; returns
that user's username. -/
def _get_username_for_email (users : List KnownUser) (changeset_email : String) :
    Option String :=
  match users.find? (userMatches (pyLower changeset_email)) with
  | some u => u.username
  | none => none

/-- `CommitTicketUpdater._get_username_for_changeset_author`
(commit_updater.py:286-292). -/
def _get_username_for_changeset_author (users : List KnownUser)
    (changeset_author : String) : Option String :=
  match (_get_changeset_author changeset_author).2.1 with
  | some author_email => _get_username_for_email users author_email
  | none => _get_username_for_email users changeset_author

/-! ### Tickets and transition functions

A trac ticket is modelled by the four fields the plugin reads or writes
(`status`, `resolution`, `owner`, `reporter`); an unset field is the empty
string, matching Python's falsiness test `if not ticket['owner']`.
Each `cmd_*` takes the known-user directory and the raw changeset author
(through which `self._get_username_for_changeset_author(changeset.author)`
is computed), the ticket, and the (unused) permission set, and returns the
updated ticket together with its boolean result. -/

structure Ticket where
  status : String
  resolution : String
  owner : String
  reporter : String
deriving Repr, DecidableEq

/-- `CommitTicketUpdater.cmd_close` (commit_updater.py:406-413).  Note the
owner is overwritten unconditionally whenever a username resolves: unlike
`cmd_invalidate` and friends there is no `if not ticket['owner']` guard. -/
def cmd_close (users : List KnownUser) (csAuthor : String) (t : Ticket)
    (_perm : List String) : Ticket × Bool :=
  if t.status ≠ "closed" then
    let t1 : Ticket := { t with status := "closed", resolution := "fixed" }
    let t2 :=
      match pyTruthyStr (_get_username_for_changeset_author users csAuthor) with
      | some u => { t1 with owner := u }
      | none => t1
    (t2, true)
  else (t, true)

/-- `CommitTicketUpdater.cmd_invalidate` (commit_updater.py:415-423). -/
def cmd_invalidate (users : List KnownUser) (csAuthor : String) (t : Ticket)
    (_perm : List String) : Ticket × Bool :=
  if t.status ≠ "closed" then
    let t1 : Ticket := { t with status := "closed", resolution := "invalid" }
    let t2 :=
      if t1.owner = "" then
        match pyTruthyStr (_get_username_for_changeset_author users csAuthor) with
        | some u => { t1 with owner := u }
        | none => t1
      else t1
    (t2, true)
  else (t, true)

/-- `CommitTicketUpdater.cmd_worksforme` (commit_updater.py:425-433). -/
def cmd_worksforme (users : List KnownUser) (csAuthor : String) (t : Ticket)
    (_perm : List String) : Ticket × Bool :=
  if t.status ≠ "closed" then
    let t1 : Ticket := { t with status := "closed", resolution := "worksforme" }
    let t2 :=
      if t1.owner = "" then
        match pyTruthyStr (_get_username_for_changeset_author users csAuthor) with
        | some u => { t1 with owner := u }
        | none => t1
      else t1
    (t2, true)
  else (t, true)

/-- `CommitTicketUpdater.cmd_alreadyimplemented` (commit_updater.py:435-443). -/
def cmd_alreadyimplemented (users : List KnownUser) (csAuthor : String)
    (t : Ticket) (_perm : List String) : Ticket × Bool :=
  if t.status ≠ "closed" then
    let t1 : Ticket :=
      { t with status := "closed", resolution := "already_implemented" }
    let t2 :=
      if t1.owner = "" then
        match pyTruthyStr (_get_username_for_changeset_author users csAuthor) with
        | some u => { t1 with owner := u }
        | none => t1
      else t1
    (t2, true)
  else (t, true)

/-- `CommitTicketUpdater.cmd_reopens` (commit_updater.py:445-452). -/
def cmd_reopens (users : List KnownUser) (csAuthor : String) (t : Ticket)
    (_perm : List String) : Ticket × Bool :=
  if t.status = "closed" then
    let t1 : Ticket := { t with status := "reopened", resolution := "" }
    let t2 :=
      match pyTruthyStr (_get_username_for_changeset_author users csAuthor) with
      | some u => { t1 with owner := u }
      | none => t1
    (t2, true)
  else (t, true)

/-- `CommitTicketUpdater.cmd_refs` (commit_updater.py:454-455): changes
nothing, returns `True`. -/
def cmd_refs (_users : List KnownUser) (_csAuthor : String) (t : Ticket)
    (_perm : List String) : Ticket × Bool :=
  (t, true)

/-- `CommitTicketUpdater.cmd_implements` (commit_updater.py:457-463).  The
reporter field is not consulted; the owner is overwritten with the resolved
author username whenever one resolves. -/
def cmd_implements (users : List KnownUser) (csAuthor : String) (t : Ticket)
    (_perm : List String) : Ticket × Bool :=
  if t.status ≠ "implemented" ∧ t.status ≠ "closed" then
    let t1 : Ticket := { t with status := "implemented" }
    let t2 :=
      match pyTruthyStr (_get_username_for_changeset_author users csAuthor) with
      | some u => { t1 with owner := u }
      | none => t1
    (t2, true)
  else (t, true)

/-- `CommitTicketUpdater.cmd_rejects` (commit_updater.py:465-474). -/
def cmd_rejects (users : List KnownUser) (csAuthor : String) (t : Ticket)
    (_perm : List String) : Ticket × Bool :=
  if t.status ≠ "rejected" ∧ t.status ≠ "closed" then
    let t1 : Ticket := { t with status := "rejected" }
    let t2 := if t1.reporter ≠ "" then { t1 with owner := t1.reporter } else t1
    let t3 :=
      if t2.owner = "" then
        match pyTruthyStr (_get_username_for_changeset_author users csAuthor) with
        | some u => { t2 with owner := u }
        | none => t2
      else t2
    (t3, true)
  else (t, true)

/-- `CommitTicketUpdater.cmd_testready` (commit_updater.py:476-486). -/
def cmd_testready (users : List KnownUser) (csAuthor : String) (t : Ticket)
    (_perm : List String) : Ticket × Bool :=
  if t.status ≠ "closed" then
    let t1 : Ticket := { t with status := "test_ready", resolution := "" }
    let t2 := if t1.reporter ≠ "" then { t1 with owner := t1.reporter } else t1
    let t3 :=
      if t2.owner = "" then
        match pyTruthyStr (_get_username_for_changeset_author users csAuthor) with
        | some u => { t2 with owner := u }
        | none => t2
      else t2
    (t3, true)
  else (t, true)

/-- The nine transition functions, as first-class values (the Python code
passes the bound methods around; command dispatch stores them in lists). -/
inductive Cmd where
  | close
  | invalidate
  | worksforme
  | alreadyimplemented
  | reopens
  | refs
  | implements
  | rejects
  | testready
deriving Repr, DecidableEq

/-- Dispatch a `Cmd` to its transition function. -/
def runCmd : Cmd → List KnownUser → String → Ticket → List String → Ticket × Bool
  | .close, u, a, t, p => cmd_close u a t p
  | .invalidate, u, a, t, p => cmd_invalidate u a t p
  | .worksforme, u, a, t, p => cmd_worksforme u a t p
  | .alreadyimplemented, u, a, t, p => cmd_alreadyimplemented u a t p
  | .reopens, u, a, t, p => cmd_reopens u a t p
  | .refs, u, a, t, p => cmd_refs u a t p
  | .implements, u, a, t, p => cmd_implements u a t p
  | .rejects, u, a, t, p => cmd_rejects u a t p
  | .testready, u, a, t, p => cmd_testready u a t p

/-! ### Message parser

`CommitTicketUpdater` builds its command regex from (commit_updater.py:196-209)

* `ticket_prefix = '(?:#|(?:ticket|issue|bug)[: ]?)'`
* `ticket_reference = ticket_prefix + '[0-9]+(?:#comment:([0-9]+|description))?'`
* `ticket_command = '(?P<action>[A-Za-z\_]*)\s*.?\s*' +
  '(?P<ticket>REF(?:(?:[, &]*|[ ]?and[ ]?)REF)*)'` with `REF = ticket_reference`
* `command_re = envelope-open + ticket_command + envelope-close` — the claims
  fix the default configuration, whose envelope is the empty string, so
  `command_re = ticket_command`;
* `ticket_re = ticket_prefix + '([0-9]+)'`.

Each regex fragment is hand-compiled below into a continuation-passing
matcher with Python `re`'s leftmost, greedy, backtracking semantics: a
matcher receives the remaining input and a continuation, tries its
alternatives in the regex's order (greedy pieces longest-first), and
returns the first continuation success. -/

/-- `[A-Za-z\_]`, the action-keyword class. -/
def isActionChar (c : Char) : Bool :=
  c.isAlpha || c == '_'

/-- `.` (any character but a newline). -/
def isDotChar (c : Char) : Bool :=
  c != '\n'

/-- `[, &]`, the ticket-list separator class. -/
def isSepClass (c : Char) : Bool :=
  c == ',' || c == ' ' || c == '&'

/-- `[: ]`, the optional character after `ticket`/`issue`/`bug`. -/
def isColonSpace (c : Char) : Bool :=
  c == ':' || c == ' '

/-- Length of the maximal prefix of `s` drawn from the class `p`. -/
def countWhile (p : Char → Bool) (s : List Char) : Nat :=
  (s.takeWhile p).length

/-- Greedy `C*` for a character class: try consuming `i` class characters,
longest split first, backtracking into the continuation. -/
def tryStarDesc (s : List Char) (i : Nat) (k : List Char → Option α) : Option α :=
  match k (s.drop i) with
  | some r => some r
  | none =>
    match i with
    | 0 => none
    | j + 1 => tryStarDesc s j k

/-- Greedy `C*` for the class `p` (top-level entry of `tryStarDesc`). -/
def tryStarClass (p : Char → Bool) (s : List Char) (k : List Char → Option α) :
    Option α :=
  tryStarDesc s (countWhile p s) k

/-- Greedy `C?` for a character class: with the character first, then
without. -/
def tryOptCh (p : Char → Bool) (s : List Char) (k : List Char → Option α) :
    Option α :=
  match s with
  | [] => k s
  | c :: rest =>
    if p c then
      match k rest with
      | some r => some r
      | none => k s
    else k s

/-- Does `s` start with the word `w`? -/
def listStartsWith : List Char → List Char → Bool
  | [], _ => true
  | _ :: _, [] => false
  | w :: ws, c :: cs => w == c && listStartsWith ws cs

/-- A literal word. -/
def tryLit (w : List Char) (s : List Char) (k : List Char → Option α) :
    Option α :=
  if listStartsWith w s then k (s.drop w.length) else none

/-- Greedy `[0-9]+` with group capture: try `i` digits, longest first,
at least one; the continuation receives the digit run and the rest. -/
def tryDigitsDesc (s : List Char) (i : Nat)
    (k : List Char → List Char → Option α) : Option α :=
  match i with
  | 0 => none
  | j + 1 =>
    match k (s.take (j + 1)) (s.drop (j + 1)) with
    | some r => some r
    | none => tryDigitsDesc s j k

/-- `([0-9]+)` (entry point of `tryDigitsDesc`). -/
def tryDigits (s : List Char) (k : List Char → List Char → Option α) :
    Option α :=
  tryDigitsDesc s (countWhile Char.isDigit s) k

/-- `(?:ticket|issue|bug)[: ]?`, one word alternative of the ticket marker. -/
def tryWordMark (w : List Char) (s : List Char) (k : List Char → Option α) :
    Option α :=
  tryLit w s (fun s1 => tryOptCh isColonSpace s1 k)

/-- `ticket_prefix = (?:#|(?:ticket|issue|bug)[: ]?)`, alternatives in the
regex's order. -/
def tryTicketMark (s : List Char) (k : List Char → Option α) : Option α :=
  match (match s with
         | c :: rest => if c == '#' then k rest else none
         | [] => none) with
  | some r => some r
  | none =>
    match tryWordMark "ticket".data s k with
    | some r => some r
    | none =>
      match tryWordMark "issue".data s k with
      | some r => some r
      | none => tryWordMark "bug".data s k

/-- `(?:#comment:([0-9]+|description))?`, the optional comment anchor of a
ticket reference (greedy: with the anchor first). -/
def tryOptComment (s : List Char) (k : List Char → Option α) : Option α :=
  match tryLit "#comment:".data s (fun s1 =>
      match tryDigits s1 (fun _ s2 => k s2) with
      | some r => some r
      | none => tryLit "description".data s1 k) with
  | some r => some r
  | none => k s

/-- `ticket_reference = ticket_prefix [0-9]+ (?:#comment:...)?`. -/
def tryTicketRef (s : List Char) (k : List Char → Option α) : Option α :=
  tryTicketMark s (fun s1 => tryDigits s1 (fun _ s2 => tryOptComment s2 k))

/-- `(?:[, &]*|[ ]?and[ ]?)`, the separator between ticket references. -/
def trySep (s : List Char) (k : List Char → Option α) : Option α :=
  match tryStarClass isSepClass s k with
  | some r => some r
  | none =>
    tryOptCh (· == ' ') s (fun s1 =>
      tryLit "and".data s1 (fun s2 => tryOptCh (· == ' ') s2 k))

/-- Greedy `(?:SEP ticket_reference)*`: iterate (with backtracking) while a
separator and a further reference match; every iteration consumes at least
the reference's two characters, so `fuel` bounded by the input length makes
the loop total. -/
def starSepRef : Nat → List Char → (List Char → Option α) → Option α
  | 0, s, k => k s
  | fuel + 1, s, k =>
    match trySep s (fun s2 => tryTicketRef s2 (fun s3 =>
        if s3.length < s.length then starSepRef fuel s3 k else none)) with
    | some r => some r
    | none => k s
termination_by structural fuel _s _k => fuel

/-- The `(?P<ticket>...)` group: one reference, then separated references. -/
def tryTicketList (s : List Char) (k : List Char → Option α) : Option α :=
  tryTicketRef s (fun s1 => starSepRef s1.length s1 k)

/-- Match `command_re` (default empty envelope) at the head of `s`,
returning the `action` group, the `ticket` group and the rest of the input
after the match. -/
def matchCmdAt (s : List Char) :
    Option (List Char × List Char × List Char) :=
  tryStarClass isActionChar s (fun s1 =>
    tryStarClass isSpaceChar s1 (fun s2 =>
      tryOptCh isDotChar s2 (fun s3 =>
        tryStarClass isSpaceChar s3 (fun s4 =>
          tryTicketList s4 (fun s5 =>
            some (s.take (s.length - s1.length),
                  s4.take (s4.length - s5.length),
                  s5))))))

/-- `command_re.finditer(message)`: non-overlapping matches, left to right;
a failed position advances by one character, a match resumes after its end
(every match consumes at least two characters). -/
def findIter : Nat → List Char → List (List Char × List Char)
  | 0, _ => []
  | _, [] => []
  | fuel + 1, s@(_ :: rest) =>
    match matchCmdAt s with
    | some (act, tks, s') => (act, tks) :: findIter fuel s'
    | none => findIter fuel rest
termination_by structural fuel _s => fuel

/-- Match `ticket_re = ticket_prefix ([0-9]+)` at the head of `s`, returning
the value of the digit group and the rest after the match. -/
def matchTicketAt (s : List Char) : Option (List Char × List Char) :=
  tryTicketMark s (fun s1 => tryDigits s1 (fun ds s2 => some (ds, s2)))

/-- `int(tkt_id)` for a digit run. -/
def natOfDigits (ds : List Char) : Nat :=
  ds.foldl (fun a c => a * 10 + (c.toNat - '0'.toNat)) 0

/-- `ticket_re.findall(tkts)` followed by `int(...)`: all non-overlapping
ticket ids in a ticket-list span. -/
def findTicketIds : Nat → List Char → List Nat
  | 0, _ => []
  | _, [] => []
  | fuel + 1, s@(_ :: rest) =>
    match matchTicketAt s with
    | some (ds, s') => natOfDigits ds :: findTicketIds fuel s'
    | none => findTicketIds fuel rest
termination_by structural fuel _s => fuel

/-! #### Command table and `_parse_message` -/

/-- `tickets.setdefault(int(tkt_id), []).append(func)`: the ticket-update
request map, as an association list preserving first-seen key order. -/
def assocAppend (l : List (Nat × List Cmd)) (tid : Nat) (f : Cmd) :
    List (Nat × List Cmd) :=
  match l with
  | [] => [(tid, [f])]
  | (k, fs) :: rest =>
    if k = tid then (k, fs ++ [f]) :: rest
    else (k, fs) :: assocAppend rest tid f

/-- `CommitTicketUpdater._get_functions()` at the default configuration:
every `cmd_*` method paired with the aliases of its `commands_*` option
(default values of the `Option` declarations, commit_updater.py:146-183),
in `dir(self)`'s alphabetical order.  The alias sets are pairwise disjoint,
so the dict's last-wins update order is immaterial. -/
def default_functions : List (String × Cmd) :=
  (pySplitSpace "alreadyimplemented already_implemented").map
      (fun a => (a, Cmd.alreadyimplemented))
  ++ (pySplitSpace "close closed closes fix fixed fixes").map
      (fun a => (a, Cmd.close))
  ++ (pySplitSpace "implement implements implemented impl").map
      (fun a => (a, Cmd.implements))
  ++ (pySplitSpace "invalid invalidate invalidated invalidates").map
      (fun a => (a, Cmd.invalidate))
  ++ (pySplitSpace "addresses re references refs see").map
      (fun a => (a, Cmd.refs))
  ++ (pySplitSpace "reject rejects rejected").map (fun a => (a, Cmd.rejects))
  ++ (pySplitSpace "reopen reopens reopened").map (fun a => (a, Cmd.reopens))
  ++ (pySplitSpace "testready test_ready ready_for_test rft").map
      (fun a => (a, Cmd.testready))
  ++ (pySplitSpace "worksforme").map (fun a => (a, Cmd.worksforme))

/-- The default value of the `commands_refs` option (commit_updater.py:150),
tested against `'<ALL>'` in `_parse_message`. -/
def commands_refs_default : String := "addresses re references refs see"

/-- `CommitTicketUpdater._parse_message` (commit_updater.py:303-316) at the
default configuration: iterate the command matches, resolve each action
keyword (lower-cased) through the command table (with the `<ALL>` fallback
of the source, inactive at the default `commands_refs`), and append the
resolved function to every referenced ticket id. -/
def _parse_message (message : String) : List (Nat × List Cmd) :=
  (findIter (message.length + 1) message.data).foldl
    (fun tickets ct =>
      let func :=
        match default_functions.lookup (pyLower (String.mk ct.1)) with
        | some f => some f
        | none =>
          if pyStripStr commands_refs_default = "<ALL>" then some Cmd.refs else none
      match func with
      | some f =>
        (findTicketIds (ct.2.length + 1) ct.2).foldl
          (fun tk tid => assocAppend tk tid f) tickets
      | none => tickets)
    []

/-! ### Duplicate guard and `changeset_modified` -/

/-- The tuple `(changeset.rev, changeset.message, changeset.author,
changeset.date)` built by `_is_duplicate` (commit_updater.py:296-297). -/
structure CsetKey where
  rev : Nat
  message : String
  author : String
  date : Nat
deriving Repr, DecidableEq

/-- `CommitTicketUpdater._is_duplicate` (commit_updater.py:294-301).  The
mutable single-slot field `_last_cset_id` (initially `None`) is passed and
returned explicitly: the result is the returned boolean together with the
new value of the slot. -/
def _is_duplicate (last : Option CsetKey) (cset : CsetKey) :
    Bool × Option CsetKey :=
  if some cset ≠ last then (false, some cset)
  else (true, last)

/-- `has_key`/`in` on the request map: `each[0] not in old_tickets`. -/
def hasKey (l : List (Nat × List Cmd)) (tid : Nat) : Bool :=
  l.any (fun p => p.1 == tid)

/-- The ticket-update map computed by
`CommitTicketUpdater.changeset_modified` (commit_updater.py:229-241) when an
old changeset is available: the new message's map with every ticket id that
already occurs in the old message's map removed. -/
def changeset_modified_tickets (newMessage oldMessage : String) :
    List (Nat × List Cmd) :=
  let tickets := _parse_message newMessage
  let old_tickets := _parse_message oldMessage
  tickets.filter (fun each => !(hasKey old_tickets each.1))

/-! ### The per-event engine `_update_tickets`

The external collaborators of `_update_tickets` (ticket store, permission
cache, configuration) are collected in `Env`.  `Ticket(self.env, tkt_id)`
either returns the stored ticket or raises `ResourceNotFound`, which the
source catches; the store is therefore modelled as a partial map.  The
permission cache `PermissionCache(self.env, authname)(ticket.resource)` is a
function of the authenticated name and the ticket id.

`ticket.save_changes(...)` is modelled as succeeding.  The subsequent
statement `self._notify(ticket, date)` (commit_updater.py:369) calls

    def _notify(self, ticket, date, author, comment):  (line 373)

with two arguments instead of the required four, so Python raises
`TypeError` before the body of `_notify` runs; the call is modelled as
`Except.error PyErr.typeError`.  (The `try/except` inside `_notify`'s body
around `NotificationSystem.notify` is unreachable through this call site.)
-/

/-- The changeset fields the engine reads. -/
structure Changeset where
  rev : Nat
  message : String
  author : String
  date : Nat
deriving Repr, DecidableEq

/-- Exceptions that escape the modelled code. -/
inductive PyErr where
  | typeError
deriving Repr, DecidableEq

/-- The host environment of one `_update_tickets` call. -/
structure Env where
  known_users : List KnownUser
  allowed_domains : String
  check_perms : Bool
  ignore_auth_case : Bool
  store : Nat → Option Ticket
  perms : String → Nat → List String

/-- `CommitTicketUpdater._authname` (commit_updater.py:396-401). -/
def _authname (env : Env) (changeset : Changeset) : String :=
  if env.ignore_auth_case then pyLower changeset.author else changeset.author

/-- The per-ticket body of `_update_tickets`'s loop (commit_updater.py:
344-365): look the ticket up (a `ResourceNotFound` is caught and leaves
`ticket = None`), check `TICKET_MODIFY` permission and the author-domain
policy, and run the accumulated commands over the mutable ticket, OR-ing
their results into `save`.  Returns the final `ticket` value and `save`
flag. -/
def updateOne (env : Env) (cs : Changeset) (authname : String) (tid : Nat)
    (cmds : List Cmd) : Option Ticket × Bool :=
  match env.store tid with
  | none => (none, false)
  | some ticket =>
    let ticket_perm := env.perms authname tid
    if env.check_perms && !(ticket_perm.contains "TICKET_MODIFY") then
      (some ticket, false)
    else if _is_author_allowed env.allowed_domains cs.author then
      let r := cmds.foldl
        (fun acc cmd =>
          let res := runCmd cmd env.known_users cs.author acc.1 ticket_perm
          (res.1, acc.2 || res.2))
        (ticket, false)
      (some r.1, r.2)
    else (some ticket, false)

/-- The loop of `_update_tickets` (commit_updater.py:342-371) over the
request map.  When `save` is set, `ticket.save_changes(...)` runs (modelled
as succeeding) and then `self._notify(ticket, date)` raises `TypeError`
(arity mismatch, see the section comment), which propagates and aborts the
loop.  Otherwise the outcome `(cmds, ticket)` is recorded (the third
component additionally exposes the loop-local `save` flag). -/
def updateLoop (env : Env) (cs : Changeset) (authname : String) :
    List (Nat × List Cmd) →
    Except PyErr (List (Nat × List Cmd × Option Ticket × Bool))
  | [] => .ok []
  | (tid, cmds) :: rest =>
    let r := updateOne env cs authname tid cmds
    if r.2 then .error PyErr.typeError
    else
      match updateLoop env cs authname rest with
      | .ok tail => .ok ((tid, cmds, r.1, r.2) :: tail)
      | .error e => .error e

/-- `CommitTicketUpdater._update_tickets` (commit_updater.py:334-371):
resolve the author to a username (falling back to `_authname`), then process
every requested ticket in order. -/
def _update_tickets (env : Env) (tickets : List (Nat × List Cmd))
    (cs : Changeset) :
    Except PyErr (List (Nat × List Cmd × Option Ticket × Bool)) :=
  let authname :=
    match pyTruthyStr (_get_username_for_changeset_author env.known_users
        cs.author) with
    | some u => u
    | none => _authname env cs
  updateLoop env cs authname tickets

/-! ### Concrete fixtures

Concrete data used to instantiate theorems: the known-user directory of the
repository's test fixture (`test_commitupdater.py:99-102`), a ticket like
the fixture's first ticket, and small environments for the engine. -/

/-- The four users of the repository's test fixture. -/
def testUsers : List KnownUser :=
  [⟨some "user1", some "User C", some "user1@example.org"⟩,
   ⟨some "user2", some "User A", some "user2@example.org"⟩,
   ⟨some "user3", some "User D", some "user3@example.org"⟩,
   ⟨some "user4", some "User B", some "user4@example.org"⟩]

/-- A non-closed ticket with a non-empty owner and a set reporter (the test
fixture's first ticket, `test_commitupdater.py:131-138`). -/
def cexTicket : Ticket :=
  { status := "new", resolution := "", owner := "user3", reporter := "user1" }

/-- An environment whose ticket store is empty (every lookup raises
`ResourceNotFound` in the source, i.e. yields `none` here). -/
def emptyStoreEnv : Env :=
  { known_users := testUsers
    allowed_domains := ""
    check_perms := true
    ignore_auth_case := false
    store := fun _ => none
    perms := fun _ _ => ["TICKET_MODIFY"] }

/-- A changeset referencing a non-existing ticket. -/
def cexChangeset : Changeset :=
  { rev := 42, message := "Fixed some stuff. closes #12345",
    author := "user1@example.org", date := 0 }

/-- An unowned open ticket, stored under id 1 in `notifyBugEnv`. -/
def notifyBugTicket : Ticket :=
  { status := "new", resolution := "", owner := "", reporter := "user1" }

/-- An environment in which ticket 1 exists, the author is allowed and has
`TICKET_MODIFY`: every command on ticket 1 leads to a save. -/
def notifyBugEnv : Env :=
  { known_users := testUsers
    allowed_domains := ""
    check_perms := true
    ignore_auth_case := false
    store := fun n => if n = 1 then some notifyBugTicket else none
    perms := fun _ _ => ["TICKET_MODIFY"] }

/-- A changeset whose message references ticket 1. -/
def notifyBugChangeset : Changeset :=
  { rev := 42, message := "refs #1", author := "user1@example.org", date := 0 }

/-- A changeset key. -/
def keyA : CsetKey :=
  { rev := 1, message := "refs #1", author := "a", date := 10 }

/-- A changeset key different from `keyA`. -/
def keyB : CsetKey :=
  { rev := 2, message := "refs #2", author := "b", date := 11 }

/-! ## Theorems -/

/-! ### Helper lemmas -/

/-- `_is_duplicate` on a remembered key: returns true, slot unchanged. -/
theorem dup_pos {l : Option CsetKey} {a : CsetKey} (h : some a = l) :
    _is_duplicate l a = (true, l) := by
  unfold _is_duplicate; rw [if_neg]; exact fun hn => hn h

/-- `_is_duplicate` on a fresh key: returns false, slot updated. -/
theorem dup_neg {l : Option CsetKey} {a : CsetKey} (h : some a ≠ l) :
    _is_duplicate l a = (false, some a) := by
  unfold _is_duplicate; rw [if_pos h]

/-- Soundness of `pyFind`: a found index is in range and holds the sought
character. -/
theorem pyFind_spec {t : Char} :
    ∀ {l : List Char} {i : Nat}, pyFind l t = some i →
      i < l.length ∧ l.getD i ' ' = t := by
  intro l
  induction l with
  | nil => intro i h; simp [pyFind] at h
  | cons c cs ih =>
    intro i h
    by_cases hc : c = t
    · simp [pyFind, hc] at h
      subst h
      simp [hc]
    · simp [pyFind, hc] at h
      obtain ⟨j, hj, rfl⟩ := h
      obtain ⟨h1, h2⟩ := ih hj
      exact ⟨by simpa using h1, by simpa using h2⟩

/-- Looking a key up after filtering out the keys of `old`: the entry
survives exactly when the key is not in `old`. -/
theorem lookup_filter_hasKey (old : List (Nat × List Cmd)) :
    ∀ (l : List (Nat × List Cmd)) (tid : Nat),
      List.lookup tid (l.filter (fun p => !(hasKey old p.1))) =
        cond (hasKey old tid) none (List.lookup tid l) := by
  intro l
  induction l with
  | nil => intro tid; cases hasKey old tid <;> rfl
  | cons hd tl ih =>
    intro tid
    obtain ⟨k, v⟩ := hd
    by_cases hk : k = tid
    · subst hk
      cases hh : hasKey old k with
      | false => simp [List.filter, hh, List.lookup, ih]
      | true => simp [List.filter, hh, List.lookup, ih, hh]
    · have hbk : (tid == k) = false := by simp [Ne.symm hk]
      cases hh : hasKey old k with
      | false => simp [List.filter, hh, List.lookup, hbk, ih]
      | true => simp [List.filter, hh, List.lookup, hbk, ih]

/-! ### Claim C1 -/

/-- Claim C1 (code bug witness): the claim states that no exception from a
single ticket's processing — lookup, command execution, persistence, or
notification dispatch — propagates out of `_update_tickets`.  The code
violates this: `self._notify(ticket, date)` (commit_updater.py:369) passes
two arguments to the four-parameter `_notify(self, ticket, date, author,
comment)` (line 373), so every saved ticket raises `TypeError` out of
`_update_tickets`.  Concretely: for the message `"refs #1"` with ticket 1
present, an allowed author and `TICKET_MODIFY` granted, the per-event call
aborts with `TypeError` instead of returning an outcome map. -/
theorem claim_C1_notify_arity_bug :
    _update_tickets notifyBugEnv (_parse_message "refs #1")
        notifyBugChangeset =
      .error PyErr.typeError := rfl

/-! ### Claim C2 -/

/-- Claim C2 counterexample: the claim says `cmd_close` sets the owner to
the resolved author "only if the owner was previously empty; a non-empty
owner is left unchanged".  On the non-closed ticket `cexTicket` with
non-empty owner `"user3"` and an author resolving to `"user1"`, `cmd_close`
overwrites the owner. -/
theorem claim_C2_counterexample :
    cexTicket.status ≠ "closed" ∧ cexTicket.owner ≠ "" ∧
      (cmd_close testUsers "user1@example.org" cexTicket []).1.owner ≠
        cexTicket.owner := by
  decide

/-- Claim C2 (amended): for every ticket whose status is not `closed`,
`cmd_close` sets status to `closed` and resolution to `fixed`, and sets the
owner to the resolved author username whenever one resolves — overwriting
any previous owner; when no username resolves the owner is unchanged. -/
theorem claim_C2_amended (users : List KnownUser) (a : String) (t : Ticket)
    (p : List String) (h : t.status ≠ "closed") :
    (cmd_close users a t p).1.status = "closed" ∧
    (cmd_close users a t p).1.resolution = "fixed" ∧
    (cmd_close users a t p).1.owner =
      (match pyTruthyStr (_get_username_for_changeset_author users a) with
       | some u => u
       | none => t.owner) := by
  unfold cmd_close
  rw [if_pos h]
  cases pyTruthyStr (_get_username_for_changeset_author users a) <;> simp

/-- Claim C2 witness: `claim_C2_amended` applied to the concrete fixture
ticket and author. -/
theorem claim_C2_amended_witness :
    (cmd_close testUsers "user1@example.org" cexTicket []).1.status =
      "closed" ∧
    (cmd_close testUsers "user1@example.org" cexTicket []).1.resolution =
      "fixed" := by
  have h := claim_C2_amended testUsers "user1@example.org" cexTicket []
    (by decide)
  exact ⟨h.1, h.2.1⟩

/-! ### Claim C3 -/

/-- Claim C3 counterexample: the claim says the outcome for an absent
ticket id is an *empty* applied-commands list.  The code stores
`ret[tkt_id] = (cmds, ticket)` with the parsed command list: for the
request `{12345 ↦ [close]}` over an empty store the recorded list is
`[close]`, not `[]`. -/
theorem claim_C3_counterexample :
    _update_tickets emptyStoreEnv [(12345, [Cmd.close])] cexChangeset =
      .ok [(12345, [Cmd.close], none, false)] ∧
      ([Cmd.close] : List Cmd) ≠ [] := by
  constructor
  · rfl
  · decide

/-- Claim C3 (amended): for every request whose ticket ids are all absent
from the store, `_update_tickets` raises nothing and returns, for each id
in order, the outcome pairing the *requested* command list with an absent
ticket and `saved = false`; absence is not an error and processing
continues with the remaining ids. -/
theorem claim_C3_amended (env : Env) (cs : Changeset)
    (ts : List (Nat × List Cmd)) (h : ∀ p ∈ ts, env.store p.1 = none) :
    _update_tickets env ts cs =
      .ok (ts.map (fun p => (p.1, p.2, none, false))) := by
  have key : ∀ (l : List (Nat × List Cmd)), (∀ p ∈ l, env.store p.1 = none) →
      ∀ an, updateLoop env cs an l =
        .ok (l.map (fun p => (p.1, p.2, none, false))) := by
    intro l
    induction l with
    | nil => intro _ _; rfl
    | cons hd tl ih =>
      intro hl an
      obtain ⟨tid, cmds⟩ := hd
      have h1 : env.store tid = none := hl (tid, cmds) (List.mem_cons_self _ _)
      have h2 := fun p hp => hl p (List.mem_cons_of_mem _ hp)
      simp only [updateLoop, updateOne, h1]
      rw [ih h2 an]
      rfl
  unfold _update_tickets
  exact key ts h _

/-- Claim C3 witness: `claim_C3_amended` applied to a two-entry request
over the empty store: both ids are processed, in order. -/
theorem claim_C3_amended_witness :
    _update_tickets emptyStoreEnv [(7, [Cmd.refs]), (8, [Cmd.close])]
        cexChangeset =
      .ok [(7, [Cmd.refs], none, false), (8, [Cmd.close], none, false)] := by
  have h := claim_C3_amended emptyStoreEnv cexChangeset
    [(7, [Cmd.refs]), (8, [Cmd.close])]
    (by intro p hp; fin_cases hp <;> rfl)
  simpa using h

/-! ### Claim C4 -/

/-- Claim C4 counterexample: the claim says `cmd_implements` sets the owner
to the ticket's reporter when the reporter is set.  On the non-closed,
non-implemented ticket `cexTicket` with reporter `"user1"` and an author
resolving to `"user2"`, the owner becomes `"user2"`, not the reporter: the
code never consults the reporter. -/
theorem claim_C4_counterexample :
    cexTicket.status ≠ "implemented" ∧ cexTicket.status ≠ "closed" ∧
      cexTicket.reporter ≠ "" ∧
      (cmd_implements testUsers "user2@example.org" cexTicket []).1.owner ≠
        cexTicket.reporter := by
  decide

/-- Claim C4 (amended): for every ticket whose status is neither
`implemented` nor `closed`, `cmd_implements` sets status to `implemented`
and sets the owner to the resolved author username whenever one resolves
(the reporter field plays no role); when no username resolves the owner is
unchanged. -/
theorem claim_C4_amended (users : List KnownUser) (a : String) (t : Ticket)
    (p : List String) (h1 : t.status ≠ "implemented")
    (h2 : t.status ≠ "closed") :
    (cmd_implements users a t p).1.status = "implemented" ∧
    (cmd_implements users a t p).1.owner =
      (match pyTruthyStr (_get_username_for_changeset_author users a) with
       | some u => u
       | none => t.owner) := by
  unfold cmd_implements
  rw [if_pos ⟨h1, h2⟩]
  cases pyTruthyStr (_get_username_for_changeset_author users a) <;> simp

/-- Claim C4 witness: `claim_C4_amended` applied to the concrete fixture
ticket and author. -/
theorem claim_C4_amended_witness :
    (cmd_implements testUsers "user2@example.org" cexTicket []).1.status =
      "implemented" := by
  have h := claim_C4_amended testUsers "user2@example.org" cexTicket []
    (by decide) (by decide)
  exact h.1

/-! ### Claim C5 -/

/-- Claim C5: `_is_author_allowed` returns true whenever the configured
allowed-domains setting is empty; when it is non-empty, it returns true iff
a (lower-cased) domain was extracted from the author string and that domain
is a member of the space-separated allowed list — in particular an author
string with no extractable domain is denied. -/
theorem claim_C5_domain_policy (cfg author : String) :
    _is_author_allowed cfg author = true ↔
      (cfg = "" ∨ ∃ d, (_get_changeset_author author).2.2 = some d ∧
        d ∈ pySplitSpace cfg) := by
  unfold _is_author_allowed
  by_cases h : cfg = ""
  · simp [h]
  · rw [if_neg h]
    cases hd : (_get_changeset_author author).2.2 with
    | none => simp [h]
    | some d =>
      simp only [h, false_or]
      constructor
      · intro hc
        refine ⟨d, rfl, ?_⟩
        by_cases hm : d ∈ pySplitSpace cfg
        · exact hm
        · simp [hm] at hc
      · rintro ⟨d', hd', hm⟩
        obtain rfl := Option.some.inj hd'
        simp [hm]

/-! ### Claim C6 -/

/-- Claim C6: parsing `"Fixes #10 and #12, and refs #12"` under the default
command aliases and empty envelope yields the request map
`{10 ↦ [close], 12 ↦ [close, reference]}`: ids in first-seen order, ticket
12 accumulating close before reference. -/
theorem claim_C6_parse_example :
    _parse_message "Fixes #10 and #12, and refs #12" =
      [(10, [Cmd.close]), (12, [Cmd.close, Cmd.refs])] := rfl

/-! ### Claim C7 -/

/-- Claim C7: every transition function returns `true` on every ticket,
even when its precondition blocks the field mutation, and the reference
function never changes any ticket field while still signalling
save-worthiness. -/
theorem claim_C7_commands_return_true (c : Cmd) (users : List KnownUser)
    (a : String) (t : Ticket) (p : List String) :
    (runCmd c users a t p).2 = true ∧ (runCmd Cmd.refs users a t p).1 = t := by
  constructor
  · cases c <;>
      simp only [runCmd, cmd_close, cmd_invalidate, cmd_worksforme,
        cmd_alreadyimplemented, cmd_reopens, cmd_refs, cmd_implements,
        cmd_rejects, cmd_testready] <;>
      split <;> rfl
  · rfl

/-! ### Claim C8 -/

/-- Claim C8: for a modified changeset with both messages available, the
applied map is the new message's map with every ticket id already present
in the old message's map removed (so only newly added references receive
commands); concretely, editing `"refs #5"` into `"refs #5 closes #6"`
applies only `{6 ↦ [close]}`. -/
theorem claim_C8_modified_only_new_ids :
    (∀ newMsg oldMsg tid,
      List.lookup tid (changeset_modified_tickets newMsg oldMsg) =
        cond (hasKey (_parse_message oldMsg) tid) none
          (List.lookup tid (_parse_message newMsg)))
    ∧ changeset_modified_tickets "refs #5 closes #6" "refs #5" =
        [(6, [Cmd.close])] := by
  constructor
  · intro newMsg oldMsg tid
    unfold changeset_modified_tickets
    exact lookup_filter_hasKey (_parse_message oldMsg) (_parse_message newMsg)
      tid
  · rfl

/-! ### Claim C9 -/

/-- Claim C9: `_is_duplicate` returns true exactly when the key equals the
remembered key; when false it updates the slot to the current key; hence an
immediate exact repeat is flagged as a duplicate, while a repeat separated
by a different key is processed again. -/
theorem claim_C9_duplicate_guard (last : Option CsetKey) (k k' : CsetKey) :
    ((_is_duplicate last k).1 = true ↔ last = some k)
    ∧ ((_is_duplicate last k).1 = false → (_is_duplicate last k).2 = some k)
    ∧ (_is_duplicate (_is_duplicate last k).2 k).1 = true
    ∧ (k' ≠ k →
        (_is_duplicate (_is_duplicate (_is_duplicate last k).2 k').2 k).1 =
          false) := by
  refine ⟨?_, ?_, ?_, ?_⟩
  · by_cases h : some k = last
    · rw [dup_pos h]
      simpa using h.symm
    · rw [dup_neg h]
      simp
      exact fun hh => h hh.symm
  · by_cases h : some k = last
    · rw [dup_pos h]
      intro hf
      simp at hf
    · rw [dup_neg h]
      intro _
      rfl
  · by_cases h : some k = last
    · rw [dup_pos h]
      show (_is_duplicate last k).1 = true
      rw [← h, dup_pos rfl]
    · rw [dup_neg h]
      show (_is_duplicate (some k) k).1 = true
      rw [dup_pos rfl]
  · intro hne
    have hne1 : some k' ≠ some k := fun hh => hne (Option.some.inj hh)
    have hne2 : some k ≠ some k' := fun hh => hne (Option.some.inj hh).symm
    by_cases h : some k = last
    · rw [dup_pos h]
      show (_is_duplicate (_is_duplicate last k').2 k).1 = false
      rw [← h, dup_neg hne1]
      show (_is_duplicate (some k') k).1 = false
      rw [dup_neg hne2]
    · rw [dup_neg h]
      show (_is_duplicate (_is_duplicate (some k) k').2 k).1 = false
      rw [dup_neg hne1]
      show (_is_duplicate (some k') k).1 = false
      rw [dup_neg hne2]

/-- Claim C9 witness: `claim_C9_duplicate_guard` applied to the concrete
keys `keyA`, `keyB`: after `keyA` then `keyB`, re-delivering `keyA` is not
flagged as a duplicate. -/
theorem claim_C9_duplicate_guard_witness :
    (_is_duplicate (_is_duplicate (_is_duplicate none keyA).2 keyB).2
        keyA).1 = false :=
  (claim_C9_duplicate_guard none keyA keyB).2.2.2 (by decide)

/-! ### Claim C10 -/

/-- Claim C10: for every author string in which `@` occurs at no index
greater than zero (no `@` at all, or only as the first character), the
splitter returns none for name, email and domain; hence under any
non-empty allowed-domains configuration such an author is denied. -/
theorem claim_C10_no_at_index (author cfg : String)
    (h : ∀ i, i < author.data.length → author.data.getD i ' ' = '@' → i = 0) :
    _get_changeset_author author = (none, none, none) ∧
      (cfg ≠ "" → _is_author_allowed cfg author = false) := by
  have hga : _get_changeset_author author = (none, none, none) := by
    unfold _get_changeset_author
    cases hf : pyFind author.data '@' with
    | none => simp [hf]
    | some i =>
      obtain ⟨hlt, hat⟩ := pyFind_spec hf
      have hi : i = 0 := h i hlt hat
      subst hi
      simp [hf]
  refine ⟨hga, fun hcfg => ?_⟩
  unfold _is_author_allowed
  rw [if_neg hcfg, hga]

/-- Claim C10 witness: `claim_C10_no_at_index` applied to the author
`"test_person"` (which has no `@`) and the configuration `"example.org"`. -/
theorem claim_C10_no_at_index_witness :
    _get_changeset_author "test_person" = (none, none, none) ∧
      ("example.org" ≠ "" →
        _is_author_allowed "example.org" "test_person" = false) :=
  claim_C10_no_at_index "test_person" "example.org" (by decide)

end CommitUpdater
